import Mathlib

/-!
Verification of the Wiser Home room heating controller
(`homeassistant/components/wiser_home/room.py`).

This file is a shallow embedding of the room controller: the temperature
aggregator (`RoomTemperature`), the valve-boost detector (`RoomValveBoost`),
the room state machine (`Auto`, `Away`, `HouseBoost`, `ValveBoost`, `Manual`,
`RoomBoost` and their `on_event` / `target_temp` methods), the default
schedule literally written in `Room.__init__`, and a schedule evaluator
modelled from the design document (the `schedule.py` module itself is not
part of the sources).

Conventions:
* temperatures are rationals (the Python code only ever manipulates them
  with +, -, *, / and comparisons, which ℚ mirrors exactly on the decimal
  literals involved);
* a Python method that can raise an uncaught exception is embedded as a
  function returning `Except String _` (the error string names the Python
  exception) or, when the partially mutated object matters, as a function
  returning the object paired with `Option String` (the raised exception,
  if any);
* a telemetry attribute that may be absent from a state object is passed
  as an `Option`; `none` means the dictionary lookup raises `KeyError`;
* timestamps are split into a weekday (1 = Monday .. 7 = Sunday, matching
  `RangingSet(range(1, 6))` for Mon-Fri and `{6, 7}` for weekends) and a
  time of day in minutes.
-/

/-- `TempDirection` enum from `room.py` (NONE / HEATING / COOLING). -/
inductive TempDirection where
  | NONE
  | HEATING
  | COOLING
deriving DecidableEq, Repr

/-- `Event` enum from `room.py`. -/
inductive Event where
  | AWAY_ON
  | AWAY_OFF
  | BOOST_ALL
  | CANCEL_ALL
  | VALVE_BOOST
  | MANUAL
  | ROOM_BOOST
  | AUTO
deriving DecidableEq, Repr

/-- The six `RoomState` subclasses of `room.py`, as a closed tag type.
`valveBoost` is the state class `ValveBoost` ("the room is in boost via
valve"); the *detector* class `RoomValveBoost` is a different Python class
and is modelled separately below. -/
inductive StateTag where
  | auto
  | away
  | houseBoost
  | valveBoost
  | manual
  | roomBoost
deriving DecidableEq, Repr

/-- Possible results of the Python `on_event` methods.  The handlers for
`Event.VALVE_BOOST` in `Auto`, `HouseBoost`, `Manual` and `RoomBoost`
return `RoomValveBoost()` — a fresh instance of the *detector* class, which
is not a `RoomState` subclass at all; `detectorObj` records that outcome.
`RoomBoost.on_event` has no fallback `return self`, so Python returns
`None` for unhandled events there; that is the `Option.none` of the
codomain. -/
inductive NextState where
  | st (s : StateTag)
  | detectorObj
deriving DecidableEq, Repr

/-- The transition function of the state machine: direct translation of the
`on_event` methods of `Auto` (lines 417-426), `Away` (446-449),
`HouseBoost` (460-469), `ValveBoost` (480-485), `Manual` (497-506) and
`RoomBoost` (517-521) in `room.py`.  Patterns are tried in order, exactly
like the Python `if`/`elif` chains. -/
def on_event : StateTag → Event → Option NextState
  | .auto, .AWAY_ON => some (.st .away)
  | .auto, .BOOST_ALL => some (.st .houseBoost)
  | .auto, .VALVE_BOOST => some .detectorObj
  | .auto, .ROOM_BOOST => some (.st .roomBoost)
  | .auto, _ => some (.st .auto)
  | .away, .AWAY_OFF => some (.st .auto)
  | .away, _ => some (.st .away)
  | .houseBoost, .CANCEL_ALL => some (.st .auto)
  | .houseBoost, .VALVE_BOOST => some .detectorObj
  | .houseBoost, .MANUAL => some (.st .manual)
  | .houseBoost, .ROOM_BOOST => some (.st .roomBoost)
  | .houseBoost, _ => some (.st .houseBoost)
  | .valveBoost, .AUTO => some (.st .auto)
  | .valveBoost, .MANUAL => some (.st .manual)
  | .valveBoost, _ => some (.st .valveBoost)
  | .manual, .AWAY_ON => some (.st .away)
  | .manual, .MANUAL => some (.st .manual)
  | .manual, .VALVE_BOOST => some .detectorObj
  | .manual, .AUTO => some (.st .auto)
  | .manual, _ => some (.st .manual)
  | .roomBoost, .AUTO => some (.st .auto)
  | .roomBoost, .VALVE_BOOST => some .detectorObj
  | .roomBoost, _ => none

/-- Modelled from the spec: a schedule `Rule` (`schedule.py` is not among
the sources).  `value` is a target temperature or the OFF sentinel,
`start_time` / `end_time` are minutes of the day, and `weekdays` is the
optional `CONF_WEEKDAYS` constraint (`none` = unconstrained). -/
structure Rule where
  value : ℚ
  name : String
  start_time : Option Nat
  end_time : Option Nat
  weekdays : Option (List Nat)
deriving DecidableEq, Repr

/-- Modelled from the spec: a rule matches a timestamp when its weekday
constraint (if present) contains the weekday, and the time of day lies in
the half-open window `[start_time, end_time)` when both bounds are set; a
rule with no time window is a catch-all. -/
def Rule.matches (r : Rule) (weekday tod : Nat) : Bool :=
  (match r.weekdays with
   | none => true
   | some ws => ws.contains weekday) &&
  (match r.start_time, r.end_time with
   | some s, some e => decide (s ≤ tod) && decide (tod < e)
   | _, _ => true)

/-- A `Schedule` is an ordered list of rules owned by a room. -/
structure Schedule where
  rules : List Rule
deriving DecidableEq, Repr

/-- Modelled from the spec: `Schedule.evaluate` iterates the rules in
declaration order and returns the first match's value together with a
marker (the rule name); `none` is the NO_MATCH signal.  It is a total
function of the rule list and the timestamp. -/
def Schedule.evaluate (s : Schedule) (weekday tod : Nat) : Option (ℚ × String) :=
  match s.rules.find? (fun r => r.matches weekday tod) with
  | none => none
  | some r => some (r.value, r.name)

/-- The default rules literally written in `Room.__init__`
(room.py lines 99-162): the `Rule(...)` constructor arguments, in append
order.  Note the first rule's `start_time` is `datetime.time(6, 0)` in the
source, i.e. 06:00.  `OFF_VALUE` comes from the missing `const.py`, so it
is a parameter here. -/
def defaultRules (off_value : ℚ) : List Rule :=
  [ ⟨20, "wd morning", some (6 * 60), some (8 * 60 + 30), some [1, 2, 3, 4, 5]⟩,
    ⟨16, "wd day", some (8 * 60 + 30), some (16 * 60 + 30), some [1, 2, 3, 4, 5]⟩,
    ⟨21, "wd evening", some (16 * 60 + 30), some (22 * 60 + 30), some [1, 2, 3, 4, 5]⟩,
    ⟨20, "we morning", some (7 * 60), some (9 * 60), some [6, 7]⟩,
    ⟨18, "we day", some (9 * 60), some (16 * 60), some [6, 7]⟩,
    ⟨21, "evening", some (16 * 60), some (23 * 60), some [6, 7]⟩,
    ⟨off_value, "sleep", none, none, none⟩ ]

/-- `Room.__init__` (room.py lines 81-162), restricted to its schedule
handling.  It assigns `self.schedule = schedule` and, when the rule list is
empty, appends the default rules to `self._schedule` — an attribute that is
*never assigned anywhere*, so the first append raises `AttributeError`
before any rule is added (and with `schedule=None` the `self.schedule.rules`
test already raises `AttributeError` on `None`).  The result is the room's
effective rule list. -/
def Room_init (schedule : Option Schedule) : Except String (List Rule) :=
  match schedule with
  | none => Except.error "AttributeError: NoneType has no attribute rules"
  | some s =>
    if s.rules.isEmpty then
      Except.error "AttributeError: Room object has no attribute _schedule"
    else
      Except.ok s.rules

/-- The `RoomTemperature` aggregator of `room.py` (lines 294-335):
a weight per valve (`self._valves`), the current aggregate
(`self._room_temp`, initially 20) and the trend (`self._temp_direction`). -/
structure RoomTemperature where
  valves : List (String × ℚ)
  room_temp : ℚ
  temp_direction : TempDirection
deriving DecidableEq, Repr

/-- `self._weight_sum = sum(self._valves.values())`, computed at
construction; the valve map never changes afterwards, so recomputing it on
demand is equivalent. -/
def RoomTemperature.weight_sum (st : RoomTemperature) : ℚ :=
  (st.valves.map Prod.snd).sum

/-- The tail of `RoomTemperature.async_local_temp` (room.py lines 315-320):
after `self._room_temp` has been updated to `new_temp`, the trend is set by
comparing with the saved `prev_temp`: `prev > new` gives COOLING,
`prev <= new` gives HEATING, and the remaining (unreachable) branch gives
NONE. -/
def set_with_direction (st : RoomTemperature) (prev_temp new_temp : ℚ) : RoomTemperature :=
  { st with
    room_temp := new_temp,
    temp_direction :=
      if prev_temp > new_temp then TempDirection.COOLING
      else if prev_temp ≤ new_temp then TempDirection.HEATING
      else TempDirection.NONE }

/-- `RoomTemperature.async_local_temp` (room.py lines 304-322).
`local_temperature` is `state.attributes["local_temperature"]`; `none`
means the attribute is missing, so the `KeyError` is caught and the update
is dropped.  With several valves the code runs
`self._room_temp -= (self._room_temp * self._valves[entity_id]) / self._weight_sum`
then `+=` with the new reading; a missing `entity_id` raises `KeyError`
(caught, update dropped) and a zero weight sum raises `ZeroDivisionError`
(not caught — `except KeyError` only). -/
def RoomTemperature.async_local_temp (st : RoomTemperature) (entity_id : String)
    (local_temperature : Option ℚ) : Except String RoomTemperature :=
  match local_temperature with
  | none => Except.ok st
  | some local_temp =>
    if st.valves.length = 1 then
      Except.ok (set_with_direction st st.room_temp local_temp)
    else
      match st.valves.lookup entity_id with
      | none => Except.ok st
      | some w =>
        if st.weight_sum = 0 then
          Except.error "ZeroDivisionError"
        else
          Except.ok (set_with_direction st st.room_temp
            (st.room_temp - st.room_temp * w / st.weight_sum
              + local_temp * w / st.weight_sum))

/-- `RoomTemperature.determine_heating` (room.py lines 328-335).
`TEMP_HYSTERESIS` lives in the missing `const.py`, so it is passed as a
parameter. -/
def RoomTemperature.determine_heating (st : RoomTemperature)
    (TEMP_HYSTERESIS target_temp : ℚ) : Bool :=
  if st.temp_direction = TempDirection.HEATING then
    decide (target_temp > st.room_temp)
  else if st.temp_direction = TempDirection.COOLING then
    decide (target_temp > st.room_temp + TEMP_HYSTERESIS)
  else
    false

/-- Feeds a list of `(entity_id, local_temperature)` readings to the
aggregator in order, stopping at the first uncaught exception. -/
def feedAll (st : RoomTemperature) : List (String × ℚ) → Except String RoomTemperature
  | [] => Except.ok st
  | (e, t) :: rest =>
    match st.async_local_temp e (some t) with
    | Except.ok st' => feedAll st' rest
    | Except.error msg => Except.error msg

/-- Modelled from the spec: the full-recompute weighted average of the
last-known per-valve readings (missing readings contribute 0), used to
compare against the incremental update. -/
def weightedAverage (valves readings : List (String × ℚ)) : ℚ :=
  (valves.map (fun p => p.2 * ((readings.lookup p.1).getD 0))).sum
    / (valves.map Prod.snd).sum

/-- The `RoomValveBoost` *detector* class of `room.py` (lines 338-367):
per-valve last observed setpoint (`self._valve_set_point`), the latched
flag (`self._valve_boost`) and the boost target
(`self._valve_boost_temp`). -/
structure RoomValveBoost where
  valve_set_point : List (String × ℚ)
  valve_boost : Bool
  valve_boost_temp : ℚ
deriving DecidableEq, Repr

/-- `RoomValveBoost()` with the default constructor arguments
(`valve_set_point=None` giving `{}`, `valve_boost=False`,
`valve_boost_delta=0`), as created in `Room.__init__`. -/
def RoomValveBoost.init : RoomValveBoost :=
  ⟨[], false, 0⟩

/-- Replace the binding of `k` in an association list (insert if absent):
`self._valve_set_point[entity_id] = setpoint`. -/
def upsert (m : List (String × ℚ)) (k : String) (v : ℚ) : List (String × ℚ) :=
  match m with
  | [] => [(k, v)]
  | (k0, v0) :: rest => if k0 == k then (k, v) :: rest else (k0, v0) :: upsert rest k v

/-- `RoomValveBoost.async_valve_boost` (room.py lines 350-367), the
detector's observe operation.  The result is the detector state after the
call together with the uncaught exception, if one is raised:
* line 352 reads `self._valve_set_point[entity_id]` first — `KeyError` if
  the valve was never observed (the map is only written on the next line);
* line 353 reads `state.attributes["occupied_heating_setpoint"]` and then
  stores it in the map;
* only when no boost is active (`if not self._valve_boost`) are the entry
  conditions checked; `state.attributes["boost"]` is only read when the
  short-circuit `and` reaches it (`delta > 1.5` for the Up branch,
  `delta < 1.5` for the Down branch; `delta == 1.5` reads neither). -/
def RoomValveBoost.async_valve_boost (st : RoomValveBoost) (entity_id : String)
    (occupied_heating_setpoint : Option ℚ) (boost_flag : Option String)
    (room_temp : ℚ) : RoomValveBoost × Option String :=
  match st.valve_set_point.lookup entity_id with
  | none => (st, some "KeyError")
  | some prev_setpoint =>
    match occupied_heating_setpoint with
    | none => (st, some "KeyError: occupied_heating_setpoint")
    | some setpoint =>
      let st1 := { st with valve_set_point := upsert st.valve_set_point entity_id setpoint }
      if st.valve_boost then
        (st1, none)
      else
        let delta := setpoint - prev_setpoint
        if delta > 3 / 2 then
          match boost_flag with
          | none => (st1, some "KeyError: boost")
          | some f =>
            if f == "Up" then
              ({ st1 with valve_boost_temp := room_temp + 2, valve_boost := true }, none)
            else
              ({ st1 with valve_boost_temp := room_temp, valve_boost := false }, none)
        else
          if delta < 3 / 2 then
            match boost_flag with
            | none => (st1, some "KeyError: boost")
            | some f =>
              if f == "Down" then
                ({ st1 with valve_boost_temp := room_temp - 2, valve_boost := true }, none)
              else
                ({ st1 with valve_boost_temp := room_temp, valve_boost := false }, none)
          else
            ({ st1 with valve_boost_temp := room_temp, valve_boost := false }, none)

/-- The fields of the Python `Room` object consulted by the per-state
`target_temp` methods. -/
structure RoomModel where
  schedule : Option Schedule
  away_temp : ℚ
  boost_all_temp : Option ℚ
  manual_temp : Option ℚ
  set_point : Option ℚ
  valve_boost : RoomValveBoost
deriving DecidableEq, Repr

/-- `Auto.target_temp` (room.py lines 428-438), also reporting whether the
warning branch was taken: `result` starts as `None`, is replaced by the
schedule evaluation when a schedule exists, and on `None` the previous
`room.set_point` is kept and a warning is logged; otherwise the matched
value is used, with `OFF_VALUE` mapped to 5. -/
def Auto_target_temp (off_value : ℚ) (room : RoomModel) (weekday tod : Nat) :
    Option ℚ × Bool :=
  match (match room.schedule with
         | none => none
         | some s => s.evaluate weekday tod : Option (ℚ × String)) with
  | none => (room.set_point, true)
  | some (v, _) => (some (if v = off_value then 5 else v), false)

/-- The `target_temp` methods of the six state classes (room.py lines
428-438, 451-452, 471-472, 487-489, 508-509, 523-524), dispatched on the
state tag.  `ValveBoost.target_temp` returns the second component of
`room.valve_boost.has_boost()`, i.e. the detector's current target. -/
def target_temp (off_value : ℚ) (s : StateTag) (room : RoomModel)
    (weekday tod : Nat) : Option ℚ :=
  match s with
  | .auto => (Auto_target_temp off_value room weekday tod).1
  | .away => some room.away_temp
  | .houseBoost => room.boost_all_temp
  | .valveBoost => some room.valve_boost.valve_boost_temp
  | .manual => room.manual_temp
  | .roomBoost => room.manual_temp

/-- Modelled from the spec: the AWAY target claimed by the design document
— the configured away temperature clamped so that it never exceeds the
value the schedule would dictate (away acts as a ceiling). -/
def awayTargetSpec (away_temp scheduled : ℚ) : ℚ :=
  min away_temp scheduled

/-- A concrete room used as counterexample input for the AWAY clamping
claim: default schedule, away temperature 22. -/
def awayExampleRoom : RoomModel :=
  { schedule := some ⟨defaultRules 0⟩
    away_temp := 22
    boost_all_temp := none
    manual_temp := none
    set_point := none
    valve_boost := RoomValveBoost.init }

/-- A concrete room used as witness input for the AUTO scheduling claim:
default schedule, no previous setpoint. -/
def autoExampleRoom : RoomModel :=
  { schedule := some ⟨defaultRules 0⟩
    away_temp := 16
    boost_all_temp := none
    manual_temp := none
    set_point := none
    valve_boost := RoomValveBoost.init }

/-! ## Theorems -/

/-- Helper for the trend claims: the direction written by
`set_with_direction` is COOLING exactly when the new value is strictly
below the previous one, HEATING exactly when it is not, and never NONE;
the aggregate becomes the new value. -/
lemma set_with_direction_spec (st : RoomTemperature) (p n : ℚ) :
    ((set_with_direction st p n).temp_direction = TempDirection.COOLING ↔ n < p) ∧
    ((set_with_direction st p n).temp_direction = TempDirection.HEATING ↔ p ≤ n) ∧
    (set_with_direction st p n).temp_direction ≠ TempDirection.NONE ∧
    (set_with_direction st p n).room_temp = n := by
  unfold set_with_direction
  rcases le_or_lt p n with h2 | h1
  · have h1 : ¬ p > n := not_lt.mpr h2
    refine ⟨?_, ?_, ?_, ?_⟩ <;> simp [h1, h2, gt_iff_lt]
  · have h2 : ¬ p ≤ n := not_le.mpr h1
    refine ⟨?_, ?_, ?_, ?_⟩ <;> simp [h1, h2, gt_iff_lt]

/-- C1: the claim says that in the AWAY state the resolved target is the
away temperature clamped so it never exceeds the would-be scheduled value.
The code (`Away.target_temp`, room.py lines 451-452) returns
`room.away_temp` unconditionally and never consults the schedule: with
`away_temp = 22` at Monday 17:00, where the default schedule dictates 21,
the resolved target is 22, not the claimed ceiling value
`awayTargetSpec 22 21 = 21`.  (This also contradicts the `WiserHome`
docstring in sensor.py, which says away mode only limits rooms whose
setpoints are higher than the away temperature.) -/
theorem away_target_ignores_schedule :
    target_temp 0 StateTag.away awayExampleRoom 1 (17 * 60) = some 22 ∧
    Schedule.evaluate ⟨defaultRules 0⟩ 1 (17 * 60) = some (21, "wd evening") ∧
    awayTargetSpec 22 21 = 21 ∧
    target_temp 0 StateTag.away awayExampleRoom 1 (17 * 60)
      ≠ some (awayTargetSpec 22 21) := by
  have hmin : awayTargetSpec 22 21 = 21 := min_eq_right (by norm_num)
  refine ⟨rfl, by decide, hmin, ?_⟩
  rw [hmin]
  intro hc
  have h22 : (22 : ℚ) = 21 := Option.some.inj hc
  norm_num at h22

/-- C2: the claim says the transition function is total, with every event
not in the table giving a self-loop, in particular that ROOM_BOOST
self-loops on every event other than AUTO and VALVE_BOOST.  The code
(`RoomBoost.on_event`, room.py lines 517-521) has no fallback
`return self`, so Python returns `None` for MANUAL, AWAY_ON, AWAY_OFF,
BOOST_ALL and CANCEL_ALL in state ROOM_BOOST — an absent result, not a
self-loop. -/
theorem roomboost_transition_undefined :
    on_event StateTag.roomBoost Event.MANUAL = none ∧
    on_event StateTag.roomBoost Event.AWAY_ON = none ∧
    on_event StateTag.roomBoost Event.BOOST_ALL = none ∧
    on_event StateTag.roomBoost Event.MANUAL
      ≠ some (NextState.st StateTag.roomBoost) ∧
    on_event StateTag.roomBoost Event.AUTO = some (NextState.st StateTag.auto) := by
  decide

/-- C3: the claim says the VALVE_BOOST event leads to the VALVE_BOOST
state.  In the code every handler of `Event.VALVE_BOOST` returns
`RoomValveBoost()` — a fresh instance of the *detector* class, not of the
`ValveBoost` state class, which is never instantiated.  The second half of
the claim does hold of the (unreachable) `ValveBoost.target_temp`: it
returns the detector's current target. -/
theorem valve_boost_event_returns_detector :
    on_event StateTag.auto Event.VALVE_BOOST = some NextState.detectorObj ∧
    on_event StateTag.houseBoost Event.VALVE_BOOST = some NextState.detectorObj ∧
    on_event StateTag.manual Event.VALVE_BOOST = some NextState.detectorObj ∧
    on_event StateTag.roomBoost Event.VALVE_BOOST = some NextState.detectorObj ∧
    NextState.detectorObj ≠ NextState.st StateTag.valveBoost ∧
    ∀ off room weekday tod, target_temp off StateTag.valveBoost room weekday tod
      = some room.valve_boost.valve_boost_temp := by
  refine ⟨by decide, by decide, by decide, by decide, by decide, ?_⟩
  intro off room weekday tod
  rfl

/-- C4: the claim says the incremental update is numerically equivalent to
a full recompute of the weighted average and order-independent.  The code
(room.py lines 313-314) subtracts the *current aggregate's* weighted
share, not the valve's own previous reading, so the update is an
exponential-smoothing step: with weights {A:1, B:1}, initial aggregate 20
and readings A=30 then B=10, the aggregate ends at 17.5 while the weighted
average of the last-known readings is 20; feeding the same readings in the
other order ends at 22.5. -/
theorem aggregate_not_weighted_average :
    feedAll ⟨[("A", 1), ("B", 1)], 20, TempDirection.NONE⟩ [("A", 30), ("B", 10)]
      = Except.ok ⟨[("A", 1), ("B", 1)], 35 / 2, TempDirection.COOLING⟩ ∧
    feedAll ⟨[("A", 1), ("B", 1)], 20, TempDirection.NONE⟩ [("B", 10), ("A", 30)]
      = Except.ok ⟨[("A", 1), ("B", 1)], 45 / 2, TempDirection.HEATING⟩ ∧
    weightedAverage [("A", 1), ("B", 1)] [("A", 30), ("B", 10)] = 20 ∧
    (35 / 2 : ℚ) ≠ 20 ∧ (45 / 2 : ℚ) ≠ 35 / 2 := by
  norm_num [feedAll, RoomTemperature.async_local_temp, set_with_direction,
    RoomTemperature.weight_sum, weightedAverage, List.lookup,
    show ("A" == "A") = true from rfl, show ("B" == "A") = false from rfl,
    show ("B" == "B") = true from rfl, show ("A" == "B") = false from rfl]

/-- C5: after every temperature update that is not dropped, the trend is
COOLING exactly when the new aggregate is strictly below the pre-update
aggregate and HEATING otherwise (equal readings included); the NONE branch
is unreachable.  "Not dropped" is the hypothesis that the reading is
present and (for the multi-valve path) the valve is known; the
`Except.ok` hypothesis additionally rules out the uncaught
`ZeroDivisionError` path, on which no update happens at all. -/
theorem trend_heating_or_cooling (st : RoomTemperature) (e : String) (t : ℚ)
    (st' : RoomTemperature)
    (h : st.async_local_temp e (some t) = Except.ok st')
    (hupd : st.valves.length = 1 ∨ (st.valves.lookup e).isSome) :
    (st'.temp_direction = TempDirection.COOLING ↔ st'.room_temp < st.room_temp) ∧
    (st'.temp_direction = TempDirection.HEATING ↔ st.room_temp ≤ st'.room_temp) ∧
    st'.temp_direction ≠ TempDirection.NONE := by
  unfold RoomTemperature.async_local_temp at h
  dsimp only at h
  by_cases hlen : st.valves.length = 1
  · rw [if_pos hlen] at h
    injection h with h
    subst h
    obtain ⟨h1, h2, h3, h4⟩ := set_with_direction_spec st st.room_temp t
    rw [h4]
    exact ⟨h1, h2, h3⟩
  · rcases hupd with hl | hs
    · exact absurd hl hlen
    · cases hlook : st.valves.lookup e with
      | none => rw [hlook] at hs; simp at hs
      | some w =>
        rw [if_neg hlen, hlook] at h
        dsimp only at h
        by_cases hW : st.weight_sum = 0
        · rw [if_pos hW] at h
          exact absurd h (by simp)
        · rw [if_neg hW] at h
          injection h with h
          subst h
          obtain ⟨h1, h2, h3, h4⟩ := set_with_direction_spec st st.room_temp
            (st.room_temp - st.room_temp * w / st.weight_sum + t * w / st.weight_sum)
          rw [h4]
          exact ⟨h1, h2, h3⟩

/-- C5 witness: a single-valve room at 20 receiving a reading of 21 ends
with trend HEATING, and the theorem's characterization evaluates there. -/
theorem trend_heating_or_cooling_witness :
    ((⟨[("A", 1)], 21, TempDirection.HEATING⟩ : RoomTemperature).temp_direction
        = TempDirection.COOLING ↔ (21 : ℚ) < 20) ∧
    ((⟨[("A", 1)], 21, TempDirection.HEATING⟩ : RoomTemperature).temp_direction
        = TempDirection.HEATING ↔ (20 : ℚ) ≤ 21) ∧
    (⟨[("A", 1)], 21, TempDirection.HEATING⟩ : RoomTemperature).temp_direction
        ≠ TempDirection.NONE :=
  trend_heating_or_cooling ⟨[("A", 1)], 20, TempDirection.NONE⟩ "A" 21
    ⟨[("A", 1)], 21, TempDirection.HEATING⟩ rfl (Or.inl rfl)

/-- C6: the heating decision: with trend HEATING demand holds exactly when
the target exceeds the room temperature; with trend COOLING exactly when
the target exceeds the room temperature plus the hysteresis constant; with
trend NONE demand is false. -/
theorem heating_decision_characterization (st : RoomTemperature)
    (hyst target : ℚ) :
    st.determine_heating hyst target = true ↔
      (st.temp_direction = TempDirection.HEATING ∧ st.room_temp < target) ∨
      (st.temp_direction = TempDirection.COOLING ∧ st.room_temp + hyst < target) := by
  unfold RoomTemperature.determine_heating
  cases hd : st.temp_direction <;> simp [hd, gt_iff_lt]

/-- C7: the claim says a Room constructed with zero schedule rules gets a
default schedule whose first rule covers weekdays 06:30-08:30 at 20.  Two
divergences: `Room.__init__` appends the default rules to
`self._schedule`, an attribute that is never assigned (only
`self.schedule` is), so construction raises `AttributeError` and no
default schedule is injected at all; and the literal first rule uses
`datetime.time(6, 0)` — 06:00, not the 06:30 stated by the claim and by
the class docstring. -/
theorem default_schedule_injection_fails :
    Room_init (some ⟨[]⟩)
      = Except.error "AttributeError: Room object has no attribute _schedule" ∧
    (defaultRules 0).head?
      = some ⟨20, "wd morning", some (6 * 60), some (8 * 60 + 30), some [1, 2, 3, 4, 5]⟩ ∧
    (6 * 60 : Nat) ≠ 6 * 60 + 30 := by
  refine ⟨rfl, rfl, by norm_num⟩

/-- C8: in AUTO mode, when schedule evaluation signals NO_MATCH the
previous setpoint is returned unchanged and the warning branch is taken;
when a rule matches, its value is used, with the OFF sentinel mapped to 5.
Evaluation itself is a total Lean function, so it cannot raise. -/
theorem auto_target_no_match_retains_setpoint (room : RoomModel) (s : Schedule)
    (weekday tod : Nat) (off : ℚ) (hs : room.schedule = some s) :
    (s.evaluate weekday tod = none →
      Auto_target_temp off room weekday tod = (room.set_point, true)) ∧
    (∀ v n, s.evaluate weekday tod = some (v, n) →
      (v ≠ off → Auto_target_temp off room weekday tod = (some v, false)) ∧
      (v = off → Auto_target_temp off room weekday tod = (some 5, false))) := by
  unfold Auto_target_temp
  rw [hs]
  dsimp only
  constructor
  · intro he
    rw [he]
  · intro v n he
    rw [he]
    constructor
    · intro hv
      simp [hv]
    · intro hv
      simp [hv]

/-- C8 witness: with the default schedule at Monday 07:00, rule
"wd morning" matches with value 20 (not the sentinel), so the resolved
target is 20 with no warning. -/
theorem auto_target_no_match_retains_setpoint_witness :
    Auto_target_temp 0 autoExampleRoom 1 (7 * 60) = (some 20, false) :=
  ((auto_target_no_match_retains_setpoint autoExampleRoom ⟨defaultRules 0⟩ 1
      (7 * 60) 0 rfl).2 20 "wd morning" (by decide)).1 (by norm_num)

/-- C9: while a boost is latched (`valve_boost = true`), any further
observation — whatever the setpoint delta and boost flag, and even if the
lookup raises — leaves both the latched flag and the boost target
unchanged; only the per-valve setpoint map is updated. -/
theorem boost_latched_while_active (st : RoomValveBoost) (e : String)
    (sp : Option ℚ) (fl : Option String) (rt : ℚ) (h : st.valve_boost = true) :
    (st.async_valve_boost e sp fl rt).1.valve_boost = true ∧
    (st.async_valve_boost e sp fl rt).1.valve_boost_temp = st.valve_boost_temp := by
  unfold RoomValveBoost.async_valve_boost
  cases hl : st.valve_set_point.lookup e with
  | none => exact ⟨h, rfl⟩
  | some prev =>
    cases sp with
    | none => exact ⟨h, rfl⟩
    | some setpoint => simp [h]

/-- C9 witness: a latched detector (target 24) observing a delta of 3 with
flag "Up" — the entry conditions satisfied again — keeps flag and target. -/
theorem boost_latched_while_active_witness :
    ((RoomValveBoost.async_valve_boost ⟨[("A", 20)], true, 24⟩ "A" (some 23)
        (some "Up") 21).1.valve_boost = true) ∧
    ((RoomValveBoost.async_valve_boost ⟨[("A", 20)], true, 24⟩ "A" (some 23)
        (some "Up") 21).1.valve_boost_temp = 24) :=
  boost_latched_while_active ⟨[("A", 20)], true, 24⟩ "A" (some 23) (some "Up") 21 rfl

/-- C10: for a valve with no previously observed setpoint, the detector's
observe operation raises `KeyError` on the very first line — before the
map is populated — even when the occupied-heating-setpoint attribute is
present; the map starts empty in a freshly constructed detector. -/
theorem first_observation_keyerror (st : RoomValveBoost) (e : String) (sp : ℚ)
    (fl : Option String) (rt : ℚ)
    (h : st.valve_set_point.lookup e = none) :
    st.async_valve_boost e (some sp) fl rt = (st, some "KeyError") ∧
    RoomValveBoost.init.valve_set_point = [] := by
  unfold RoomValveBoost.async_valve_boost
  rw [h]
  exact ⟨rfl, rfl⟩

/-- C10 witness: the first report for valve "A" on a fresh detector raises
`KeyError` although the setpoint attribute is present. -/
theorem first_observation_keyerror_witness :
    RoomValveBoost.init.async_valve_boost "A" (some 21) (some "Up") 20
      = (RoomValveBoost.init, some "KeyError") ∧
    RoomValveBoost.init.valve_set_point = [] :=
  first_observation_keyerror RoomValveBoost.init "A" 21 (some "Up") 20 rfl
